import Mathlib

/-!
Verification of the Rokoko PS5 controller bridge (controller_bridge.py and
app.py) against its natural-language specification.

The embedding models wall-clock instants (Python time.time values) as
rationals, HTTP transport results and JSON decoding results as explicit
inductive data, and the two event loops (the console main loop and the GUI
App poll loop) as state-transition functions over explicit state records.
-/

/-- CALIBRATE_BUTTON = 3 (Triangle), controller_bridge.py line 26. -/
def CALIBRATE_BUTTON : Nat := 3

/-- RECORD_BUTTON = 0 (Cross), controller_bridge.py line 27. -/
def RECORD_BUTTON : Nat := 0

/-- STOP_BUTTON = 1 (Circle), controller_bridge.py line 28. -/
def STOP_BUTTON : Nat := 1

/-- DEBOUNCE_SECONDS = 5, controller_bridge.py line 30.  Times are modelled
as rationals (seconds since the epoch, as returned by Python time.time). -/
def DEBOUNCE_SECONDS : ℚ := 5

/-- One iteration of the per-action debounce check in the console main loop
(controller_bridge.py lines 154-176; the same check-then-set appears for each
of the three buttons, each with its own timestamp variable).  Given the
stored last-trigger time and the current time, the code either debounces
(prints the debounce notice and leaves the timestamp unchanged, returning
false = no HTTP call) or sets the timestamp to now and dispatches (returning
true = the action function is invoked). -/
def debounceStep (last : ℚ) (now : ℚ) : ℚ × Bool :=
  if now - last < DEBOUNCE_SECONDS then (last, false) else (now, true)

/-- Folding the debounce check over a sequence of press times for a single
action, starting from a stored timestamp (the console loop initialises it
to 0, lines 143-145; the GUI dict lookup defaults to 0, app.py line 300).
The returned list records, per press, whether it dispatched (true) or was
debounced with a log entry and no HTTP call (false). -/
def debounceRun (last : ℚ) : List ℚ → List Bool
  | [] => []
  | t :: ts =>
    let r := debounceStep last t
    r.2 :: debounceRun r.1 ts

/-- If a press fires and every later press keeps firing (each inter-arrival
gap at least DEBOUNCE_SECONDS), all presses of the sequence dispatch. -/
theorem debounceRun_all_fire (ts : List ℚ) :
    ∀ last t0 : ℚ, DEBOUNCE_SECONDS ≤ t0 - last →
    List.Chain' (fun a b => DEBOUNCE_SECONDS ≤ b - a) (t0 :: ts) →
    debounceRun last (t0 :: ts) = List.replicate (ts.length + 1) true := by
  induction ts with
  | nil =>
    intro last t0 h0 _
    simp [debounceRun, debounceStep, not_lt.mpr h0]
  | cons t1 ts ih =>
    intro last t0 h0 hchain
    rw [List.chain'_cons] at hchain
    have step0 : debounceStep last t0 = (t0, true) := by
      simp [debounceStep, not_lt.mpr h0]
    have htail := ih t0 t1 hchain.1 hchain.2
    simp only [debounceRun] at htail
    simp only [debounceRun, step0]
    rw [htail]
    simp [List.replicate_succ]

/-- If every press of a sequence falls strictly within DEBOUNCE_SECONDS of
the stored timestamp, every press is debounced and the timestamp never
moves. -/
theorem debounceRun_all_suppressed (ts : List ℚ) :
    ∀ last : ℚ, (∀ t ∈ ts, t - last < DEBOUNCE_SECONDS) →
    debounceRun last ts = List.replicate ts.length false := by
  induction ts with
  | nil => intro last _; simp [debounceRun]
  | cons t ts ih =>
    intro last h
    have ht : t - last < DEBOUNCE_SECONDS := h t (List.mem_cons_self t ts)
    simp only [debounceRun, debounceStep, if_pos ht]
    rw [ih last (fun u hu => h u (List.mem_cons_of_mem t hu))]
    simp [List.replicate_succ]

/-- C1, as stated, is false on the code: the last-trigger timestamp is only
updated on presses that dispatch, so the debounce window is measured from
the last dispatch, not from the previous press.  Presses at times 10, 14, 18
have every inter-arrival gap equal to 4 < DEBOUNCE_SECONDS = 5, yet both the
first and the third press dispatch (two HTTP calls, not exactly one). -/
theorem C1_counterexample :
    List.Chain' (fun a b : ℚ => b - a < DEBOUNCE_SECONDS)
      [(10 : ℚ), 14, 18] ∧
    List.count true (debounceRun 0 [(10 : ℚ), 14, 18]) = 2 := by
  constructor
  · simp [List.chain'_cons, DEBOUNCE_SECONDS]
    norm_num
  · norm_num [debounceRun, debounceStep, DEBOUNCE_SECONDS, List.count_cons]

/-- C1 amended: for every sequence of presses of the same action in which
every press after the first occurs strictly within DEBOUNCE_SECONDS of the
FIRST press (and the first press time is at least DEBOUNCE_SECONDS, as every
wall-clock time is), exactly the first press dispatches an HTTP call and
every other press produces a debounce log entry and no HTTP call. -/
theorem C1_amended (t0 : ℚ) (ts : List ℚ)
    (h0 : DEBOUNCE_SECONDS ≤ t0)
    (h : ∀ t ∈ ts, t - t0 < DEBOUNCE_SECONDS) :
    debounceRun 0 (t0 :: ts) = true :: List.replicate ts.length false := by
  have hc : ¬ (t0 - 0 < DEBOUNCE_SECONDS) := by
    rw [sub_zero]
    exact not_lt.mpr h0
  have step0 : debounceStep 0 t0 = (t0, true) := by
    unfold debounceStep
    rw [if_neg hc]
  simp only [debounceRun, step0]
  rw [debounceRun_all_suppressed ts t0 h]

/-- Witness for C1_amended at the concrete presses 7, 8, 9. -/
theorem C1_amended_witness :
    debounceRun 0 [(7 : ℚ), 8, 9] = true :: List.replicate 2 false :=
  C1_amended 7 [8, 9] (by norm_num [DEBOUNCE_SECONDS])
    (by
      intro t ht
      simp [DEBOUNCE_SECONDS]
      fin_cases ht <;> norm_num)

/-- C2: for every sequence of presses of the same action in which every
inter-arrival gap is at least DEBOUNCE_SECONDS (and the first press time is
at least DEBOUNCE_SECONDS, as every wall-clock time is), every press
dispatches exactly one HTTP call and no press is debounced. -/
theorem C2_every_press_dispatches (t0 : ℚ) (ts : List ℚ)
    (h0 : DEBOUNCE_SECONDS ≤ t0)
    (h : List.Chain' (fun a b => DEBOUNCE_SECONDS ≤ b - a) (t0 :: ts)) :
    debounceRun 0 (t0 :: ts) = List.replicate (ts.length + 1) true := by
  have h0' : DEBOUNCE_SECONDS ≤ t0 - 0 := by rwa [sub_zero]
  exact debounceRun_all_fire ts 0 t0 h0' h

/-- Witness for C2 at the concrete presses 5, 10, 16. -/
theorem C2_witness :
    debounceRun 0 [(5 : ℚ), 10, 16] = List.replicate 3 true :=
  C2_every_press_dispatches 5 [10, 16] (by norm_num [DEBOUNCE_SECONDS])
    (by
      simp [List.chain'_cons, DEBOUNCE_SECONDS]
      norm_num)

/-- RESPONSE_CODES lookup table, controller_bridge.py lines 35-42 (a Python
dict from int response codes to symbolic names; absent keys fall through to
the dict-get default). -/
def RESPONSE_CODES (code : Int) : Option String :=
  if code = 0 then some "OK"
  else if code = 1 then some "NO_CALIBRATEABLE_ACTORS"
  else if code = 3 then some "CALIBRATION_ALREADY_ONGOING"
  else if code = 4 then some "RECORDING_ALREADY_STARTED"
  else if code = 5 then some "RECORDING_NOT_STARTED"
  else if code = 6 then some "UNEXPECTED_ERROR"
  else none

/-- Python str() of the value held by the variable named code in rokoko_api:
either an int or None (the result of body.get when the key is absent). -/
def pyStr : Option Int → String
  | none => "None"
  | some c => toString c

/-- The status string computed at controller_bridge.py line 59:
RESPONSE_CODES.get with default the string UNKNOWN followed by the
parenthesised str() of the code. -/
def statusFor (code : Option Int) : String :=
  match code.bind RESPONSE_CODES with
  | some s => s
  | none => "UNKNOWN (" ++ pyStr code ++ ")"

/-- The two fields of a decoded JSON response body that rokoko_api reads
(controller_bridge.py lines 57-58): each may be absent; description defaults
to the empty string via body.get. -/
structure JsonBody where
  response_code : Option Int
  description : Option String
deriving DecidableEq

/-- What the HTTP round trip inside rokoko_api produces before the code
inspects it: a transport failure (urllib.error.URLError, line 61), a
response whose body fails JSON decoding (json.loads raises; caught by the
generic except at line 64, carrying the parse error message), or a
successfully decoded body. -/
inductive RawResponse where
  | urlError (reason : String)
  | parseFailure (message : String)
  | decoded (body : JsonBody)
deriving DecidableEq

/-- The triple rokoko_api returns (controller_bridge.py line 60 on success,
lines 63 and 66 on failure: None, None, None). -/
structure ApiResult where
  code : Option Int
  status : Option String
  desc : Option String
deriving DecidableEq

/-- rokoko_api (controller_bridge.py lines 45-66), as a function of the
command name and the transport/decoding result.  Returns the result triple
together with the lines the function itself prints.  The Lean function is
total: every input yields a value, mirroring that the Python function
catches URLError and every other exception and never propagates one. -/
def rokoko_api (command : String) (resp : RawResponse) :
    ApiResult × List String :=
  match resp with
  | RawResponse.urlError reason =>
    (⟨none, none, none⟩,
     ["Error: Rokoko Studio is unreachable — " ++ reason])
  | RawResponse.parseFailure message =>
    (⟨none, none, none⟩,
     ["Error sending " ++ command ++ " request: " ++ message])
  | RawResponse.decoded body =>
    (⟨body.response_code, some (statusFor body.response_code),
      some (body.description.getD "")⟩, [])

/-- The outcome taxonomy of the spec (ApiOutcome): Success, Rejected,
Unreachable. -/
inductive ApiOutcome where
  | success (desc : String)
  | rejected (status : String) (desc : String)
  | unreachable
deriving DecidableEq

/-- The branching every caller applies to a rokoko_api result triple
(controller_bridge.py lines 77-82, 87-92, 97-102 and app.py lines 326-333,
338-346, 353-361): code equal to 0 is the success branch, code None is the
unreachable branch, any other code is the rejected branch reported with the
translated status string. -/
def classifyResult (r : ApiResult) : ApiOutcome :=
  if r.code = some 0 then ApiOutcome.success (r.desc.getD "")
  else if r.code = none then ApiOutcome.unreachable
  else ApiOutcome.rejected (r.status.getD "") (r.desc.getD "")

/-- C6: on a decoded JSON body carrying an integer response_code, the
adapter result is classified success exactly when the code is 0 and
rejected otherwise, and the status string translates codes 0, 1, 3, 4, 5, 6
to their symbolic names with the UNKNOWN fallback for every other code. -/
theorem C6_response_code_translation (cmd : String) (c : Int) (d : String) :
    (classifyResult (rokoko_api cmd (RawResponse.decoded ⟨some c, some d⟩)).1 =
      if c = 0 then ApiOutcome.success d
      else ApiOutcome.rejected (statusFor (some c)) d) ∧
    statusFor (some 0) = "OK" ∧
    statusFor (some 1) = "NO_CALIBRATEABLE_ACTORS" ∧
    statusFor (some 3) = "CALIBRATION_ALREADY_ONGOING" ∧
    statusFor (some 4) = "RECORDING_ALREADY_STARTED" ∧
    statusFor (some 5) = "RECORDING_NOT_STARTED" ∧
    statusFor (some 6) = "UNEXPECTED_ERROR" ∧
    (c ≠ 0 → c ≠ 1 → c ≠ 3 → c ≠ 4 → c ≠ 5 → c ≠ 6 →
      statusFor (some c) = "UNKNOWN (" ++ toString c ++ ")") := by
  refine ⟨?_, by decide, by decide, by decide, by decide, by decide, by decide, ?_⟩
  · by_cases h0 : c = 0
    · subst h0
      simp [rokoko_api, classifyResult]
    · rw [if_neg h0]
      simp [rokoko_api, classifyResult, h0]
  · intro h0 h1 h3 h4 h5 h6
    simp [statusFor, RESPONSE_CODES, pyStr, h0, h1, h3, h4, h5, h6]

/-- Witness for C6 at command calibrate, code 2, description x. -/
theorem C6_witness :
    classifyResult (rokoko_api "calibrate"
        (RawResponse.decoded ⟨some 2, some "x"⟩)).1 =
      ApiOutcome.rejected (statusFor (some 2)) "x" ∧
    statusFor (some 2) = "UNKNOWN (2)" := by
  have h := C6_response_code_translation "calibrate" 2 "x"
  refine ⟨?_, ?_⟩
  · have h1 := h.1
    rw [if_neg (by decide : (2 : Int) ≠ 0)] at h1
    exact h1
  · exact h.2.2.2.2.2.2.2 (by decide) (by decide) (by decide) (by decide)
      (by decide) (by decide)

/-- C7, as stated, is false on the code: on a malformed JSON body the
adapter returns the triple None, None, None (controller_bridge.py line 66),
so the returned result does NOT carry the parse error as its description —
the description component is None, and the parse error text appears only in
the line printed at line 65. -/
theorem C7_counterexample :
    (rokoko_api "calibrate"
        (RawResponse.parseFailure
          "Expecting value: line 1 column 1 (char 0)")).1.desc ≠
      some "Expecting value: line 1 column 1 (char 0)" := by
  simp [rokoko_api]

/-- C7 amended: for every HTTP response whose body is not well-formed JSON,
the adapter returns the Unreachable result triple (code, status and
description all None), and the parse error appears in the single error line
the adapter prints; the adapter does not raise (the embedding is a total
function, mirroring the catch-all except clause). -/
theorem C7_amended (cmd e : String) :
    (rokoko_api cmd (RawResponse.parseFailure e)).1 = ⟨none, none, none⟩ ∧
    classifyResult (rokoko_api cmd (RawResponse.parseFailure e)).1 =
      ApiOutcome.unreachable ∧
    (rokoko_api cmd (RawResponse.parseFailure e)).2 =
      ["Error sending " ++ cmd ++ " request: " ++ e] := by
  refine ⟨rfl, ?_, rfl⟩
  simp [rokoko_api, classifyResult]

/-- The queue messages of the GUI variant (app.py): log lines with a
severity tag, recording-state updates, and connectivity updates, as put on
msg_queue by the worker threads and the connectivity loop. -/
inductive Msg where
  | log (text : String) (tag : String)
  | recording (active : Bool)
  | rokoko (connected : Bool)
deriving DecidableEq

/-- App._handle_button (app.py lines 313-361) as a function of the pressed
button and the HTTP transport/decoding result of the one rokoko_api call it
makes: the list of messages the worker thread puts on msg_queue, in order. -/
def handle_button (button : Nat) (resp : RawResponse) : List Msg :=
  if button = CALIBRATE_BUTTON then
    Msg.log "Triangle → Calibrating (3 s countdown)…" "info" ::
    (let r := (rokoko_api "calibrate" resp).1
     if r.code = some 0 then
       [Msg.log ("Calibration OK: " ++ r.desc.getD "") "success"]
     else if r.code = none then
       [Msg.log "Calibration failed — Rokoko unreachable" "error"]
     else
       [Msg.log ("Calibration: " ++ r.status.getD "" ++ " — " ++
          r.desc.getD "") "error"])
  else if button = RECORD_BUTTON then
    Msg.log "Cross → Starting recording…" "info" ::
    (let r := (rokoko_api "recording/start" resp).1
     if r.code = some 0 then
       [Msg.log "Recording started" "success", Msg.recording true]
     else if r.code = none then
       [Msg.log "Record failed — Rokoko unreachable" "error"]
     else
       [Msg.log ("Record: " ++ r.status.getD "" ++ " — " ++
          r.desc.getD "") "error"])
  else if button = STOP_BUTTON then
    Msg.log "Circle → Stopping recording…" "info" ::
    (let r := (rokoko_api "recording/stop" resp).1
     if r.code = some 0 then
       [Msg.log "Recording stopped" "success", Msg.recording false]
     else if r.code = none then
       [Msg.log "Stop failed — Rokoko unreachable" "error"]
     else
       [Msg.log ("Stop: " ++ r.status.getD "" ++ " — " ++
          r.desc.getD "") "error"])
  else []

/-- send_calibrate (controller_bridge.py lines 69-82) as the list of lines
the call prints: the adapter's own prints followed by the caller's print,
where a None code returns early without printing anything further. -/
def send_calibrate (resp : RawResponse) : List String :=
  let r := (rokoko_api "calibrate" resp).1
  let logs := (rokoko_api "calibrate" resp).2
  logs ++
    (if r.code = none then []
     else if r.code = some 0 then
       ["Calibration successful: " ++ r.desc.getD ""]
     else
       ["Calibration response: " ++ r.status.getD "" ++ " — " ++
          r.desc.getD ""])

/-- The RecordingState update performed by App._poll_queue (app.py lines
392-399): each queued recording message overwrites the displayed flag; all
other messages leave it unchanged. -/
def poll_queue_recording (rec : Bool) (msgs : List Msg) : Bool :=
  msgs.foldl
    (fun r m =>
      match m with
      | Msg.recording b => b
      | _ => r)
    rec

/-- C5: a Success outcome (response_code 0) for StartRecording sets the
displayed RecordingState to true, a Success outcome for StopRecording sets
it to false, and Rejected (nonzero code) or Unreachable outcomes of either
action leave it unchanged, from any prior state. -/
theorem C5_recording_state (rec : Bool) (d : String) :
    poll_queue_recording rec
        (handle_button RECORD_BUTTON
          (RawResponse.decoded ⟨some 0, some d⟩)) = true ∧
    poll_queue_recording rec
        (handle_button STOP_BUTTON
          (RawResponse.decoded ⟨some 0, some d⟩)) = false ∧
    (∀ c : Int, c ≠ 0 →
      poll_queue_recording rec
          (handle_button RECORD_BUTTON
            (RawResponse.decoded ⟨some c, some d⟩)) = rec ∧
      poll_queue_recording rec
          (handle_button STOP_BUTTON
            (RawResponse.decoded ⟨some c, some d⟩)) = rec) ∧
    (∀ reason : String,
      poll_queue_recording rec
          (handle_button RECORD_BUTTON (RawResponse.urlError reason)) = rec ∧
      poll_queue_recording rec
          (handle_button STOP_BUTTON (RawResponse.urlError reason)) = rec ∧
      poll_queue_recording rec
          (handle_button RECORD_BUTTON (RawResponse.parseFailure reason)) =
        rec ∧
      poll_queue_recording rec
          (handle_button STOP_BUTTON (RawResponse.parseFailure reason)) =
        rec) := by
  refine ⟨?_, ?_, ?_, ?_⟩
  · simp [handle_button, rokoko_api, poll_queue_recording,
      RECORD_BUTTON, CALIBRATE_BUTTON, STOP_BUTTON]
  · simp [handle_button, rokoko_api, poll_queue_recording,
      RECORD_BUTTON, CALIBRATE_BUTTON, STOP_BUTTON]
  · intro c hc
    constructor
    · simp [handle_button, rokoko_api, poll_queue_recording,
        RECORD_BUTTON, CALIBRATE_BUTTON, STOP_BUTTON, hc]
    · simp [handle_button, rokoko_api, poll_queue_recording,
        RECORD_BUTTON, CALIBRATE_BUTTON, STOP_BUTTON, hc]
  · intro reason
    refine ⟨?_, ?_, ?_, ?_⟩ <;>
      simp [handle_button, rokoko_api, poll_queue_recording,
        RECORD_BUTTON, CALIBRATE_BUTTON, STOP_BUTTON]

/-- Witness for C5 at rec = false, description ok, code 4, reason refused. -/
theorem C5_witness :
    poll_queue_recording false
        (handle_button RECORD_BUTTON
          (RawResponse.decoded ⟨some 0, some "ok"⟩)) = true ∧
    poll_queue_recording false
        (handle_button RECORD_BUTTON
          (RawResponse.decoded ⟨some 4, some "ok"⟩)) = false ∧
    poll_queue_recording false
        (handle_button STOP_BUTTON (RawResponse.urlError "refused")) =
      false := by
  have h := C5_recording_state false "ok"
  exact ⟨h.1, (h.2.2.1 4 (by decide)).1, (h.2.2.2 "refused").2.1⟩

/-- C10: a decoded JSON body lacking the response_code key yields the triple
code None, status UNKNOWN (None), and the decoded description; the GUI
worker reports it through the unreachable branch (a single unreachable
error log after the info line, no rejected-style log), and the console
caller takes its None branch and returns early, printing nothing (in
particular no rejected-style Calibration response line). -/
theorem C10_missing_response_code (cmd d : String) :
    (rokoko_api cmd (RawResponse.decoded ⟨none, some d⟩)).1 =
      ⟨none, some "UNKNOWN (None)", some d⟩ ∧
    classifyResult (rokoko_api cmd (RawResponse.decoded ⟨none, some d⟩)).1 =
      ApiOutcome.unreachable ∧
    handle_button RECORD_BUTTON (RawResponse.decoded ⟨none, some d⟩) =
      [Msg.log "Cross → Starting recording…" "info",
       Msg.log "Record failed — Rokoko unreachable" "error"] ∧
    send_calibrate (RawResponse.decoded ⟨none, some d⟩) = [] := by
  refine ⟨rfl, ?_, ?_, ?_⟩
  · simp [rokoko_api, classifyResult]
  · simp [handle_button, rokoko_api, RECORD_BUTTON, CALIBRATE_BUTTON]
  · simp [send_calibrate, rokoko_api]

/-- Witness for C10 at command calibrate and description d0. -/
theorem C10_witness :
    (rokoko_api "calibrate" (RawResponse.decoded ⟨none, some "d0"⟩)).1 =
      ⟨none, some "UNKNOWN (None)", some "d0"⟩ ∧
    send_calibrate (RawResponse.decoded ⟨none, some "d0"⟩) = [] :=
  ⟨(C10_missing_response_code "calibrate" "d0").1,
   (C10_missing_response_code "calibrate" "d0").2.2.2⟩

/-- The pygame events App._poll_controller reacts to (app.py lines 277-307):
device-added (with the device index, the reported controller name, and
whether constructing the Joystick raised pygame.error, in which case the
except clause passes), device-removed, a button press carrying the pygame
button index and the time.time() value read for it, and any other event
type (skipped). -/
inductive PollEvent where
  | deviceAdded (deviceIndex : Nat) (deviceName : String) (ok : Bool)
  | deviceRemoved
  | buttonDown (btn : Nat) (now : ℚ)
  | otherEvent
deriving DecidableEq

/-- The externally visible effects of one App._poll_controller iteration:
status-row updates, activity-log lines, and the spawning of a worker thread
that will run App._handle_button for a button (the dispatch of one HTTP
call). -/
inductive PollEffect where
  | setStatus (channel : String) (text : String)
  | addLog (text : String) (tag : String)
  | spawnDispatch (btn : Nat)
deriving DecidableEq

/-- The state App._poll_controller reads and writes: self.joystick (None or
the constructed Joystick, modelled by its device index) and self._last_times
(a dict whose get defaults to 0, modelled as a total map). -/
structure AppState where
  joystick : Option Nat
  lastTimes : Nat → ℚ

/-- One event handled by App._poll_controller (app.py lines 277-307). -/
def pollStep (s : AppState) (e : PollEvent) : AppState × List PollEffect :=
  match e with
  | PollEvent.deviceAdded idx name ok =>
    if s.joystick = none then
      if ok then
        ({ joystick := some idx, lastTimes := s.lastTimes },
         [PollEffect.setStatus "controller" name,
          PollEffect.addLog ("Controller connected: " ++ name) "success"])
      else (s, [])
    else (s, [])
  | PollEvent.deviceRemoved =>
    ({ joystick := none, lastTimes := s.lastTimes },
     [PollEffect.setStatus "controller" "Searching…",
      PollEffect.addLog "Controller disconnected" "error"])
  | PollEvent.buttonDown btn now =>
    if s.joystick ≠ none then
      if ¬ (btn = CALIBRATE_BUTTON ∨ btn = RECORD_BUTTON ∨ btn = STOP_BUTTON)
      then (s, [])
      else if now - s.lastTimes btn < DEBOUNCE_SECONDS then
        (s, [PollEffect.addLog "Debounced — ignoring repeated press" "info"])
      else
        ({ joystick := s.joystick,
           lastTimes := Function.update s.lastTimes btn now },
         [PollEffect.spawnDispatch btn])
    else (s, [])
  | PollEvent.otherEvent => (s, [])

/-- Folding App._poll_controller over a list of events, accumulating the
effects in order. -/
def pollEvents (s : AppState) : List PollEvent → AppState × List PollEffect
  | [] => (s, [])
  | e :: es =>
    let r := pollStep s e
    let rest := pollEvents r.1 es
    (rest.1, r.2 ++ rest.2)

/-- Recognises the device-attach events of the poll loop. -/
def PollEvent.isAttach : PollEvent → Bool
  | PollEvent.deviceAdded _ _ _ => true
  | _ => false

/-- While the joystick handle is None, a non-attach event keeps it None and
never spawns a dispatch. -/
theorem pollStep_null_handle (s : AppState) (e : PollEvent)
    (hj : s.joystick = none) (he : e.isAttach = false) :
    (pollStep s e).1.joystick = none ∧
    ∀ b : Nat, PollEffect.spawnDispatch b ∉ (pollStep s e).2 := by
  cases e with
  | deviceAdded idx name ok => simp [PollEvent.isAttach] at he
  | deviceRemoved => simp [pollStep]
  | buttonDown btn now => simp [pollStep, hj]
  | otherEvent => simp [pollStep, hj]

/-- While the joystick handle is None, a run of non-attach events spawns no
dispatch at all. -/
theorem pollEvents_null_handle (es : List PollEvent) :
    ∀ s : AppState, s.joystick = none →
    (∀ e ∈ es, e.isAttach = false) →
    ∀ b : Nat, PollEffect.spawnDispatch b ∉ (pollEvents s es).2 := by
  induction es with
  | nil => intro s _ _ b; simp [pollEvents]
  | cons e es ih =>
    intro s hj hall b
    have he : e.isAttach = false := hall e (List.mem_cons_self e es)
    have hstep := pollStep_null_handle s e hj he
    simp only [pollEvents, List.mem_append]
    push_neg
    refine ⟨hstep.2 b, ?_⟩
    exact ih (pollStep s e).1 hstep.1
      (fun u hu => hall u (List.mem_cons_of_mem e hu)) b

/-- C4: processing a DeviceRemoved event sets the joystick handle to None,
and from then on, as long as no DeviceAdded event arrives, no ButtonPressed
event (or any other event) ever spawns a dispatch worker. -/
theorem C4_detached_ignores_buttons (s : AppState) (es : List PollEvent)
    (h : ∀ e ∈ es, e.isAttach = false) :
    (pollStep s PollEvent.deviceRemoved).1.joystick = none ∧
    ∀ b : Nat,
      PollEffect.spawnDispatch b ∉
        (pollEvents (pollStep s PollEvent.deviceRemoved).1 es).2 := by
  have hj : (pollStep s PollEvent.deviceRemoved).1.joystick = none := by
    simp [pollStep]
  exact ⟨hj, pollEvents_null_handle es _ hj h⟩

/-- Witness for C4: after a removal, presses of all three mapped buttons at
well-spaced times spawn nothing. -/
theorem C4_witness :
    (pollStep ⟨some 0, fun _ => 0⟩ PollEvent.deviceRemoved).1.joystick =
      none ∧
    ∀ b : Nat,
      PollEffect.spawnDispatch b ∉
        (pollEvents (pollStep ⟨some 0, fun _ => 0⟩
            PollEvent.deviceRemoved).1
          [PollEvent.buttonDown 3 100, PollEvent.buttonDown 0 200,
           PollEvent.buttonDown 1 300, PollEvent.otherEvent]).2 :=
  C4_detached_ignores_buttons ⟨some 0, fun _ => 0⟩
    [PollEvent.buttonDown 3 100, PollEvent.buttonDown 0 200,
     PollEvent.buttonDown 1 300, PollEvent.otherEvent]
    (by
      intro e he
      fin_cases he <;> rfl)

/-- The outcome of the one TCP connection attempt made inside
check_rokoko_connection (app.py lines 64-71): the connection is established
(socket.create_connection returns and the socket is closed) or the attempt
raises socket.timeout, socket.error or OSError with some message. -/
inductive ConnectAttempt where
  | established
  | failed (error : String)
deriving DecidableEq

/-- check_rokoko_connection (app.py lines 64-71) as a function of the
current attempt's outcome alone: the function body holds no variable that
survives the call, so the result depends on nothing else. -/
def check_rokoko_connection : ConnectAttempt → Bool
  | ConnectAttempt.established => true
  | ConnectAttempt.failed _ => false

/-- C9: the connectivity probe is stateless.  Over any number of repeated
invocations (one per iteration of App._rokoko_check_loop), if every attempt
fails — the service is down throughout — every call returns false, and if
every attempt succeeds — the service is up throughout — every call returns
true; each result is a function of the current attempt only. -/
theorem C9_probe_stateless (attempts : List ConnectAttempt) :
    ((∀ a ∈ attempts, a ≠ ConnectAttempt.established) →
      attempts.map check_rokoko_connection =
        List.replicate attempts.length false) ∧
    ((∀ a ∈ attempts, a = ConnectAttempt.established) →
      attempts.map check_rokoko_connection =
        List.replicate attempts.length true) := by
  constructor
  · intro h
    induction attempts with
    | nil => rfl
    | cons a as ih =>
      have ha : a ≠ ConnectAttempt.established :=
        h a (List.mem_cons_self a as)
      have hfa : check_rokoko_connection a = false := by
        cases a with
        | established => exact absurd rfl ha
        | failed e => rfl
      simp only [List.map_cons, List.length_cons, List.replicate_succ, hfa]
      exact congrArg _ (ih (fun u hu => h u (List.mem_cons_of_mem a hu)))
  · intro h
    induction attempts with
    | nil => rfl
    | cons a as ih =>
      have ha : a = ConnectAttempt.established :=
        h a (List.mem_cons_self a as)
      subst ha
      simp only [List.map_cons, List.length_cons, List.replicate_succ,
        check_rokoko_connection]
      exact congrArg _ (ih (fun u hu => h u (List.mem_cons_of_mem _ hu)))

/-- Witness for C9 on three failed attempts and two established attempts. -/
theorem C9_witness :
    [ConnectAttempt.failed "refused", ConnectAttempt.failed "timeout",
        ConnectAttempt.failed "refused"].map check_rokoko_connection =
      List.replicate 3 false ∧
    [ConnectAttempt.established, ConnectAttempt.established].map
        check_rokoko_connection =
      List.replicate 2 true :=
  ⟨(C9_probe_stateless
      [ConnectAttempt.failed "refused", ConnectAttempt.failed "timeout",
       ConnectAttempt.failed "refused"]).1
      (by intro a ha; fin_cases ha <;> simp),
   (C9_probe_stateless
      [ConnectAttempt.established, ConnectAttempt.established]).2
      (by intro a ha; fin_cases ha <;> rfl)⟩

/-- The three startup/shutdown scenarios of the console variant named by the
claim about process exit codes. -/
inductive ConsoleScenario where
  | pygameMissing
  | noControllerDetected
  | runThenInterrupt
deriving DecidableEq

/-- The exit code of the console process (controller_bridge.py) in each
scenario, transcribed from its control flow: when the pygame import fails
the module-level guard at lines 7-11 prints and raises SystemExit(1), so
the process exits 1; when no controller is detected, main prints the notice
at line 130 and returns at line 131, so the interpreter finishes the script
normally and exits 0; when the loop runs until Ctrl+C, the
KeyboardInterrupt is caught at line 182, pygame.quit() runs in the finally
block, main returns, and the process exits 0. -/
def consoleExitCode : ConsoleScenario → Nat
  | ConsoleScenario.pygameMissing => 1
  | ConsoleScenario.noControllerDetected => 0
  | ConsoleScenario.runThenInterrupt => 0

/-- C8, as stated, is false on the code: in the no-controller-at-startup
scenario main returns normally after printing, so the process exits 0, not
1. -/
theorem C8_counterexample :
    consoleExitCode ConsoleScenario.noControllerDetected ≠ 1 := by
  decide

/-- C8 amended: the console variant exits 1 when pygame is missing at
startup, exits 0 (after printing the no-controller notice) when no
controller is detected at startup, and exits 0 on a normal Ctrl+C
shutdown. -/
theorem C8_amended :
    consoleExitCode ConsoleScenario.pygameMissing = 1 ∧
    consoleExitCode ConsoleScenario.noControllerDetected = 0 ∧
    consoleExitCode ConsoleScenario.runThenInterrupt = 0 := by
  decide
